import Mathlib

/-!
Verification development for the redsys OAuth2 middleware
(`src/services/backend/src/oauth2_middleware.cpp`).

C++ `std::string` values are embedded as `List Char`; wall-clock times
(`std::chrono::system_clock::time_point`, `time_t`) are embedded as `Int`
epoch seconds, the granularity at which the middleware's comparisons are
stated.  Fallible operations return `Option`.  The remote introspection
endpoint is abstracted as an oracle mapping the attempt index to the
outcome of that attempt.
-/

namespace Redsys

/-- Embedding of C++ `std::string` as a list of characters. -/
abbrev Str := List Char

/-- `struct OAuth2TokenInfo` from `oauth2_middleware.h` (lines 11-23).
`introspected_at` is the wall-clock capture time in epoch seconds. -/
structure OAuth2TokenInfo where
  active : Bool
  scope : Str
  client_id : Str
  username : Str
  token_type : Str
  exp : Int
  iat : Int
  sub : Str
  aud : Str
  iss : Str
  introspected_at : Int
deriving Repr, DecidableEq

/-- `listStartsWith hay needle` holds when `needle` is an initial segment of
`hay`; this is the position-0 case of C++ `std::string::find`. -/
def listStartsWith : Str → Str → Bool
  | _, [] => true
  | [], _ :: _ => false
  | a :: as, b :: bs => a == b && listStartsWith as bs

/-- `containsSub hay needle` is the embedding of
`hay.find(needle) != std::string::npos`: `needle` occurs as a contiguous
substring of `hay` (an empty needle is always found). -/
def containsSub : Str → Str → Bool
  | [], needle => needle.isEmpty
  | a :: t, needle => listStartsWith (a :: t) needle || containsSub t needle

/-- `OAuth2Middleware::validateRequiredScopes` (oauth2_middleware.cpp,
lines 184-189): reject an empty scope string, otherwise test
`scope.find(requiredScope) != npos`. -/
def validateRequiredScopes (tokenInfo : OAuth2TokenInfo) (requiredScope : Str) : Bool :=
  if tokenInfo.scope.isEmpty then false
  else containsSub tokenInfo.scope requiredScope

/-- The fixed clock-skew allowance: `std::chrono::minutes(5)` in seconds
(oauth2_middleware.cpp, line 180). -/
def skewBufferSeconds : Int := 5 * 60

/-- `OAuth2Middleware::validateTokenExpiration` (oauth2_middleware.cpp,
lines 175-182): `now < from_time_t(exp) + 5min`, at epoch-second
granularity. -/
def validateTokenExpiration (tokenInfo : OAuth2TokenInfo) (now : Int) : Bool :=
  decide (now < tokenInfo.exp + skewBufferSeconds)

/-- The literal `"Bearer "` compared against the first 7 characters of the
`Authorization` header (oauth2_middleware.cpp, line 97). -/
def bearerLit : Str := "Bearer ".data

/-- `OAuth2Middleware::extractToken` (oauth2_middleware.cpp, lines 92-109).
The header argument is the value of the `Authorization` header; an absent
header is the empty string (drogon's `getHeader` returns `""` then). -/
def extractToken (authHeader : Str) : Option Str :=
  if authHeader = [] then none
  else if authHeader.length < 7 ∨ authHeader.take 7 ≠ bearerLit then none
  else if authHeader.drop 7 = [] ∨ (authHeader.drop 7).length > 1000 then none
  else some (authHeader.drop 7)

/-- `MAX_REQUESTS_PER_MINUTE` (oauth2_middleware.h, line 60). -/
def MAX_REQUESTS_PER_MINUTE : Int := 100

/-- The rate-limiter bookkeeping fields `lastRequestTime_` / `requestCount_`
of `OAuth2Middleware` (oauth2_middleware.h, lines 58-59); the spec calls
this pair the RateWindow (`windowStart`, `count`). -/
structure RateState where
  lastRequestTime : Int
  requestCount : Int
deriving Repr, DecidableEq

/-- The path literal searched for by the rate limiter's path classification
(oauth2_middleware.cpp, line 254). -/
def apiPathLit : Str := "/api/v1/".data

/-- `OAuth2Middleware::checkRateLimit` (oauth2_middleware.cpp, lines
242-263), with the mutation of the two bookkeeping fields made explicit:
returns the admit/reject decision together with the updated state. -/
def checkRateLimit (st : RateState) (now : Int) (path : Str) : Bool × RateState :=
  let st1 := if now - st.lastRequestTime > 60 then RateState.mk now 0 else st
  let maxRequests :=
    if containsSub path apiPathLit then MAX_REQUESTS_PER_MINUTE
    else MAX_REQUESTS_PER_MINUTE * 2
  let st2 := RateState.mk st1.lastRequestTime (st1.requestCount + 1)
  if st2.requestCount > maxRequests then (false, st2) else (true, st2)

/-- Outcome of one attempt of the introspection HTTP exchange
(oauth2_middleware.cpp, lines 113-169).  `transportFailure` covers
`result != ReqResult::Ok`, a missing response object, and a thrown
exception; `response status parses info` is a reply with the given HTTP
status code, whether its body parses as JSON (`Json::Reader::parse`), and
the `OAuth2TokenInfo` obtained from the parsed body by the defaulting
field extraction of lines 150-161. -/
inductive IntrospectionAttempt where
  | transportFailure : IntrospectionAttempt
  | response (status : Nat) (parses : Bool) (info : OAuth2TokenInfo) : IntrospectionAttempt
deriving Repr, DecidableEq

/-- `maxRetries_` as set in the constructor (oauth2_middleware.cpp,
line 20). -/
def maxRetries_ : Nat := 3

/-- The retry loop of `OAuth2Middleware::introspectToken`
(oauth2_middleware.cpp, lines 112-170): `attempt` is the current loop
index, `fuel` the number of attempts still allowed.  Each `continue`
(network error, status other than `k200OK`, JSON parse failure) moves to
the next attempt; a 200 reply whose body parses is returned at once. -/
def introspectLoop (oracle : Nat → IntrospectionAttempt) : Nat → Nat → Option OAuth2TokenInfo
  | _, 0 => none
  | attempt, fuel + 1 =>
    match oracle attempt with
    | .transportFailure => introspectLoop oracle (attempt + 1) fuel
    | .response status parses info =>
      if status ≠ 200 then introspectLoop oracle (attempt + 1) fuel
      else if parses = false then introspectLoop oracle (attempt + 1) fuel
      else some info

/-- `OAuth2Middleware::introspectToken` (oauth2_middleware.cpp, lines
111-173): run the retry loop from attempt 0 with `maxRetries_` attempts;
falling out of the loop yields `none` (`std::nullopt`). -/
def introspectToken (oracle : Nat → IntrospectionAttempt) : Option OAuth2TokenInfo :=
  introspectLoop oracle 0 maxRetries_

/-- An attempt outcome on which the loop body of `introspectToken` takes a
`continue` branch rather than returning: transport failure, HTTP status
other than 200, or a body that fails to parse as JSON. -/
def isRetryTrigger : IntrospectionAttempt → Bool
  | .transportFailure => true
  | .response status parses _ => status != 200 || !parses

/-- The token info an attempt outcome delivers when the loop accepts it
(status exactly 200 and a parseable body), else `none`. -/
def acceptedInfo : IntrospectionAttempt → Option OAuth2TokenInfo
  | .transportFailure => none
  | .response status parses info =>
    if status = 200 ∧ parses = true then some info else none

/-- `clientId_` default from the constructor (oauth2_middleware.cpp,
lines 14-15). -/
def clientId_ : Str := "redsys-backend".data

/-- `clientSecret_` default from the constructor (oauth2_middleware.cpp,
lines 16-17). -/
def clientSecret_ : Str := "backend_secret".data

/-- The form body built by `introspectToken` before sending the POST
(oauth2_middleware.cpp, line 123): plain string concatenation, no
URL-encoding of any part. -/
def buildIntrospectionBody (token clientId clientSecret : Str) : Str :=
  "token=".data ++ token ++ "&client_id=".data ++ clientId ++
    "&client_secret=".data ++ clientSecret

/-- The required scope literal passed by the orchestrator
(oauth2_middleware.cpp, line 71). -/
def requiredScopeLit : Str := "redsys.api".data

/-- The bypass test of the orchestrator (oauth2_middleware.cpp, line 31):
health check and public hello endpoint skip authentication. -/
def pathBypass (path : Str) : Bool :=
  path == "/health".data || path == "/api/v1/hello".data

/-- The inbound request as the middleware observes it: its path and the
value of its `Authorization` header (empty when the header is absent). -/
structure RequestModel where
  path : Str
  authHeader : Str
deriving Repr, DecidableEq

/-- One callback invocation made by `doFilter`: `continueChain` is a call
of the downstream continuation `fccb()`, `errorResponse` a call of the
error callback `fcb(resp)` where `resp` was produced by
`createErrorResponse(status, error, description)`
(oauth2_middleware.cpp, lines 228-240). -/
inductive CallEvent where
  | continueChain : CallEvent
  | errorResponse (status : Nat) (error : Str) (description : Str) : CallEvent
deriving Repr, DecidableEq

/-- `OAuth2Middleware::doFilter` (oauth2_middleware.cpp, lines 27-90).
The returned list is the sequence of callback invocations the evaluation
performs, in order; the returned `RateState` is the rate-limiter state
after the evaluation.  The remote introspection exchange is abstracted by
`oracle`. -/
def doFilter (st : RateState) (now : Int) (req : RequestModel)
    (oracle : Nat → IntrospectionAttempt) : List CallEvent × RateState :=
  if pathBypass req.path then ([CallEvent.continueChain], st)
  else if (checkRateLimit st now req.path).1 = false then
    ([CallEvent.errorResponse 429 "rate_limit_exceeded".data "Too many requests".data],
      (checkRateLimit st now req.path).2)
  else
    match extractToken req.authHeader with
    | none =>
      ([CallEvent.errorResponse 401 "missing_token".data "Authorization header required".data],
        (checkRateLimit st now req.path).2)
    | some _token =>
      match introspectToken oracle with
      | none =>
        ([CallEvent.errorResponse 401 "invalid_token".data "Token is invalid or expired".data],
          (checkRateLimit st now req.path).2)
      | some tokenInfo =>
        if tokenInfo.active = false then
          ([CallEvent.errorResponse 401 "invalid_token".data "Token is invalid or expired".data],
            (checkRateLimit st now req.path).2)
        else if validateTokenExpiration tokenInfo now = false then
          ([CallEvent.errorResponse 401 "invalid_token".data "Token has expired".data],
            (checkRateLimit st now req.path).2)
        else if validateRequiredScopes tokenInfo requiredScopeLit = false then
          ([CallEvent.errorResponse 403 "insufficient_scope".data "Token lacks required scope".data],
            (checkRateLimit st now req.path).2)
        else
          ([CallEvent.continueChain], (checkRateLimit st now req.path).2)

/-- Is `c` one of the whitespace characters the spec's "split on
whitespace" refers to. -/
def isWhitespaceChar (c : Char) : Bool :=
  c == ' ' || c == '\t' || c == '\n' || c == '\r'

/-- Accumulator worker for `wsTokens`: `acc` holds (reversed) the
characters of the current in-progress word. -/
def wsTokensAux : Str → Str → List Str
  | [], acc => if acc.isEmpty then [] else [acc.reverse]
  | c :: rest, acc =>
    if isWhitespaceChar c then
      if acc.isEmpty then wsTokensAux rest []
      else acc.reverse :: wsTokensAux rest []
    else wsTokensAux rest (c :: acc)

/-- Modelled from the spec: the "whitespace-delimited set obtained by
splitting the scope string on whitespace" — the maximal whitespace-free
runs of the string, in order. -/
def wsTokens (s : Str) : List Str := wsTokensAux s []

/-- Modelled from the spec: "the required scope occurs as a whole member
of the whitespace-delimited set obtained by splitting the TokenInfo's
scope string on whitespace". -/
def scopeSetMember (scope required : Str) : Bool :=
  (wsTokens scope).contains required

/-- The per-path request limit `checkRateLimit` actually selects
(oauth2_middleware.cpp, lines 253-255): the base limit when the path
contains `"/api/v1/"` as a substring, twice the base limit otherwise. -/
def apiPathLimit (path : Str) : Int :=
  if containsSub path apiPathLit then MAX_REQUESTS_PER_MINUTE
  else MAX_REQUESTS_PER_MINUTE * 2

/-- The request count in force for a `checkRateLimit` call at time `now`:
zero when the window has expired (is about to be reset), the stored count
otherwise. -/
def windowCount (st : RateState) (now : Int) : Int :=
  if now - st.lastRequestTime > 60 then 0 else st.requestCount

/-- Run the first `n` `checkRateLimit` calls of a sequence whose `i`-th
call happens at time `times i`, threading the rate-limiter state. -/
def runRateCalls (times : Nat → Int) (path : Str) : Nat → RateState → RateState
  | 0, st => st
  | n + 1, st => (checkRateLimit (runRateCalls times path n st) (times n) path).2

/-- Accumulator worker for `splitOnChar`. -/
def splitOnCharAux (sep : Char) : Str → Str → List Str
  | [], acc => [acc.reverse]
  | c :: rest, acc =>
    if c == sep then acc.reverse :: splitOnCharAux sep rest []
    else splitOnCharAux sep rest (c :: acc)

/-- Split a string at every occurrence of `sep` (standard
`application/x-www-form-urlencoded` field separation when `sep` is
`'&'`). -/
def splitOnChar (sep : Char) (s : Str) : List Str := splitOnCharAux sep s []

/-- Modelled from the spec (external interface §6): decode one
`key=value` field of a form body — the key is everything before the first
`'='`, the value everything after it. -/
def splitFieldAtEq (field : Str) : Str × Str :=
  (field.takeWhile (fun c => c != '='), (field.dropWhile (fun c => c != '=')).drop 1)

/-- Modelled from the spec (external interface §6): the value a form
decoder assigns to `key` in `body` — the value of the first
`&`-separated field whose key equals `key`. -/
def formFieldValue (body key : Str) : Option Str :=
  (((splitOnChar '&' body).map splitFieldAtEq).find? (fun p => p.1 == key)).map
    (fun p => p.2)

/-!  Concrete instances used by counterexamples and witnesses.  -/

/-- A token whose granted scope is the single word `other-api-extra`. -/
def c1Tok : OAuth2TokenInfo :=
  ⟨true, "other-api-extra".data, [], [], [], 0, 0, [], [], [], 0⟩

/-- An arbitrary token info carried by the C2 counterexample's 204 reply. -/
def c2Info : OAuth2TokenInfo := ⟨true, [], [], [], [], 0, 0, [], [], [], 0⟩

/-- Introspection oracle whose reply always has HTTP status 204 with a
parseable body. -/
def c2Oracle : Nat → IntrospectionAttempt :=
  fun _ => IntrospectionAttempt.response 204 true c2Info

/-- Token info delivered on the third attempt by `c2wOracle`. -/
def c2wInfo : OAuth2TokenInfo := ⟨true, [], [], [], [], 0, 0, [], [], [], 0⟩

/-- Introspection oracle failing transport on attempts 0 and 1 and
answering 200 with a parseable body on attempt 2. -/
def c2wOracle : Nat → IntrospectionAttempt :=
  fun i => if i < 2 then IntrospectionAttempt.transportFailure
    else IntrospectionAttempt.response 200 true c2wInfo

/-- An expired, active token: `exp = 0`. -/
def c4Tok : OAuth2TokenInfo := ⟨true, [], [], [], [], 0, 0, [], [], [], 0⟩

/-- An active token with `exp = 300`. -/
def c4Tok' : OAuth2TokenInfo := ⟨true, [], [], [], [], 300, 0, [], [], [], 0⟩

/-- An active token with `exp = 0` and the required scope granted. -/
def c5Tok : OAuth2TokenInfo :=
  ⟨true, "redsys.api".data, [], [], [], 0, 0, [], [], [], 0⟩

/-- Introspection oracle that always answers 200 with `c5Tok`. -/
def c5Oracle : Nat → IntrospectionAttempt :=
  fun _ => IntrospectionAttempt.response 200 true c5Tok

/-- An inactive token (all other claim fields arbitrary). -/
def c8Info : OAuth2TokenInfo := ⟨false, [], [], [], [], 0, 0, [], [], [], 0⟩

/-- Introspection oracle that always fails transport. -/
def c8OracleFail : Nat → IntrospectionAttempt :=
  fun _ => IntrospectionAttempt.transportFailure

/-- Introspection oracle that always answers 200 with the inactive
`c8Info`. -/
def c8OracleInactive : Nat → IntrospectionAttempt :=
  fun _ => IntrospectionAttempt.response 200 true c8Info

/-!  General helper lemmas about the string embedding.  -/

theorem listStartsWith_iff (hay needle : Str) :
    listStartsWith hay needle = true ↔ ∃ rest, hay = needle ++ rest := by
  induction needle generalizing hay with
  | nil =>
    simp [listStartsWith]
  | cons b bs ih =>
    cases hay with
    | nil => simp [listStartsWith]
    | cons a as =>
      simp [listStartsWith, ih, and_assoc]

theorem containsSub_iff (hay needle : Str) :
    containsSub hay needle = true ↔ ∃ pre post, hay = pre ++ needle ++ post := by
  induction hay with
  | nil =>
    simp only [containsSub, List.isEmpty_iff]
    constructor
    · rintro rfl
      exact ⟨[], [], rfl⟩
    · rintro ⟨pre, post, h⟩
      rcases List.append_eq_nil.mp h.symm with ⟨h1, h2⟩
      rcases List.append_eq_nil.mp h1 with ⟨-, h3⟩
      exact h3
  | cons a t ih =>
    simp only [containsSub, Bool.or_eq_true, listStartsWith_iff, ih]
    constructor
    · rintro (⟨rest, h⟩ | ⟨pre, post, h⟩)
      · exact ⟨[], rest, by simpa using h⟩
      · exact ⟨a :: pre, post, by simp [h]⟩
    · rintro ⟨pre, post, h⟩
      cases pre with
      | nil =>
        exact Or.inl ⟨post, by simpa using h⟩
      | cons p ps =>
        simp only [List.cons_append, List.cons.injEq] at h
        exact Or.inr ⟨ps, post, h.2⟩

theorem take_length_append (l₁ l₂ : List Char) : (l₁ ++ l₂).take l₁.length = l₁ := by
  induction l₁ with
  | nil => simp
  | cons a as ih => simp [ih]

theorem drop_length_append (l₁ l₂ : List Char) : (l₁ ++ l₂).drop l₁.length = l₂ := by
  induction l₁ with
  | nil => simp
  | cons a as ih => simp [ih]

/-!  Helper lemmas about the rate limiter.  -/

theorem checkRateLimit_admit_iff (st : RateState) (now : Int) (path : Str) :
    (checkRateLimit st now path).1 = true ↔
      windowCount st now + 1 ≤ apiPathLimit path := by
  by_cases h1 : now - st.lastRequestTime > 60 <;>
    by_cases h2 : containsSub path apiPathLit = true <;>
      simp only [checkRateLimit, windowCount, apiPathLimit, h1, h2, if_true, if_false,
        MAX_REQUESTS_PER_MINUTE, Bool.false_eq_true, ite_true, ite_false] <;>
      split <;> rename_i h3 <;> simp_all

theorem checkRateLimit_reject_iff (st : RateState) (now : Int) (path : Str) :
    (checkRateLimit st now path).1 = false ↔
      apiPathLimit path < windowCount st now + 1 := by
  rw [← Bool.not_eq_true, checkRateLimit_admit_iff]
  exact not_le

theorem checkRateLimit_state_no_reset (st : RateState) (now : Int) (path : Str)
    (h : now - st.lastRequestTime ≤ 60) :
    (checkRateLimit st now path).2 =
      RateState.mk st.lastRequestTime (st.requestCount + 1) := by
  have h' : ¬ (now - st.lastRequestTime > 60) := by omega
  simp only [checkRateLimit, h', if_false, ite_false]
  split <;> split <;> rfl

theorem checkRateLimit_state_reset (st : RateState) (now : Int) (path : Str)
    (h : now - st.lastRequestTime > 60) :
    (checkRateLimit st now path).2 = RateState.mk now 1 := by
  simp only [checkRateLimit, h, if_true, ite_true]
  split <;> split <;> rfl

theorem apiPathLimit_cases (path : Str) :
    apiPathLimit path = 100 ∨ apiPathLimit path = 200 := by
  unfold apiPathLimit MAX_REQUESTS_PER_MINUTE
  split
  · exact Or.inl rfl
  · exact Or.inr (by norm_num)

theorem runRateCalls_no_reset (times : Nat → Int) (path : Str) (t0 : Int) :
    ∀ (k : Nat) (c : Int), (∀ i, i < k → times i - t0 ≤ 60) →
      runRateCalls times path k (RateState.mk t0 c) = RateState.mk t0 (c + k) := by
  intro k
  induction k with
  | zero =>
    intro c h
    simp [runRateCalls]
  | succ n ih =>
    intro c h
    simp only [runRateCalls]
    rw [ih c (fun i hi => h i (by omega)),
      checkRateLimit_state_no_reset _ _ _ (by simpa using h n (by omega))]
    simp only [RateState.mk.injEq, true_and]
    push_cast
    ring

/-!  Helper lemmas about the introspection retry loop.  -/

theorem introspectLoop_congr (o o' : Nat → IntrospectionAttempt) :
    ∀ (fuel attempt : Nat),
      (∀ i, attempt ≤ i → i < attempt + fuel → o i = o' i) →
      introspectLoop o attempt fuel = introspectLoop o' attempt fuel := by
  intro fuel
  induction fuel with
  | zero => intro attempt _; rfl
  | succ n ih =>
    intro attempt h
    have h0 : o attempt = o' attempt := h attempt le_rfl (by omega)
    have hrec : introspectLoop o (attempt + 1) n = introspectLoop o' (attempt + 1) n :=
      ih (attempt + 1) (fun i h1 h2 => h i (by omega) (by omega))
    simp only [introspectLoop, h0]
    cases o' attempt with
    | transportFailure => exact hrec
    | response status parses info =>
      dsimp only
      by_cases hs : status ≠ 200
      · rw [if_pos hs, if_pos hs, hrec]
      · rw [if_neg hs, if_neg hs]
        by_cases hp : parses = false
        · rw [if_pos hp, if_pos hp, hrec]
        · rw [if_neg hp, if_neg hp]

theorem introspectLoop_all_trigger (o : Nat → IntrospectionAttempt) :
    ∀ (fuel attempt : Nat),
      (∀ i, attempt ≤ i → i < attempt + fuel → isRetryTrigger (o i) = true) →
      introspectLoop o attempt fuel = none := by
  intro fuel
  induction fuel with
  | zero => intro attempt _; rfl
  | succ n ih =>
    intro attempt h
    have hrec : introspectLoop o (attempt + 1) n = none :=
      ih (attempt + 1) (fun i h1 h2 => h i (by omega) (by omega))
    have h0 : isRetryTrigger (o attempt) = true := h attempt le_rfl (by omega)
    cases ho : o attempt with
    | transportFailure =>
      simp only [introspectLoop, ho]
      exact hrec
    | response status parses info =>
      rw [ho] at h0
      simp only [isRetryTrigger, Bool.or_eq_true, bne_iff_ne, ne_eq,
        Bool.not_eq_true'] at h0
      simp only [introspectLoop, ho]
      by_cases hs : status ≠ 200
      · rw [if_pos hs, hrec]
      · rw [if_neg hs]
        have hp : parses = false := by tauto
        rw [if_pos hp, hrec]

theorem introspectLoop_first_accept (o : Nat → IntrospectionAttempt) :
    ∀ (fuel attempt i : Nat), attempt ≤ i → i < attempt + fuel →
      (∀ j, attempt ≤ j → j < i → isRetryTrigger (o j) = true) →
      isRetryTrigger (o i) = false →
      introspectLoop o attempt fuel = acceptedInfo (o i) := by
  intro fuel
  induction fuel with
  | zero =>
    intro attempt i h1 h2 _ _
    omega
  | succ n ih =>
    intro attempt i h1 h2 hprev hacc
    rcases eq_or_lt_of_le h1 with rfl | hlt
    · cases ho : o attempt with
      | transportFailure =>
        rw [ho] at hacc
        simp [isRetryTrigger] at hacc
      | response status parses info =>
        rw [ho] at hacc
        have hs : status = 200 := by
          by_contra hne
          have hb : (status != 200) = true := by simpa using hne
          simp [isRetryTrigger, hb] at hacc
        have hp : parses = true := by
          by_contra hne
          have hb : parses = false := by simpa using hne
          simp [isRetryTrigger, hb] at hacc
        simp only [introspectLoop, ho]
        rw [if_neg (by simp [hs]), if_neg (by simp [hp])]
        simp [acceptedInfo, hs, hp]
    · have h0 : isRetryTrigger (o attempt) = true := hprev attempt le_rfl hlt
      have hrec : introspectLoop o (attempt + 1) n = acceptedInfo (o i) :=
        ih (attempt + 1) i (by omega) (by omega)
          (fun j hj1 hj2 => hprev j (by omega) hj2) hacc
      cases ho : o attempt with
      | transportFailure =>
        simp only [introspectLoop, ho]
        exact hrec
      | response status parses info =>
        rw [ho] at h0
        simp only [isRetryTrigger, Bool.or_eq_true, bne_iff_ne, ne_eq,
          Bool.not_eq_true'] at h0
        simp only [introspectLoop, ho]
        by_cases hs : status ≠ 200
        · rw [if_pos hs, hrec]
        · rw [if_neg hs]
          have hp : parses = false := by tauto
          rw [if_pos hp, hrec]

/-!  Helper lemmas about the orchestrator pipeline.  -/

theorem doFilter_invalid_token (st : RateState) (now : Int) (req : RequestModel)
    (o : Nat → IntrospectionAttempt)
    (hbp : pathBypass req.path = false)
    (hrate : (checkRateLimit st now req.path).1 = true)
    (hext : extractToken req.authHeader ≠ none)
    (h : introspectToken o = none ∨
      ∃ info, introspectToken o = some info ∧ info.active = false) :
    (doFilter st now req o).1 =
      [CallEvent.errorResponse 401 "invalid_token".data "Token is invalid or expired".data] := by
  obtain ⟨tok, htok⟩ := Option.ne_none_iff_exists'.mp hext
  rcases h with hnone | ⟨info, hinfo, hact⟩
  · simp [doFilter, hbp, hrate, htok, hnone]
  · simp [doFilter, hbp, hrate, htok, hinfo, hact]

theorem doFilter_expired (st : RateState) (now : Int) (req : RequestModel)
    (o : Nat → IntrospectionAttempt) (t : OAuth2TokenInfo)
    (hbp : pathBypass req.path = false)
    (hrate : (checkRateLimit st now req.path).1 = true)
    (hext : extractToken req.authHeader ≠ none)
    (hintro : introspectToken o = some t)
    (hact : t.active = true)
    (hexp : validateTokenExpiration t now = false) :
    (doFilter st now req o).1 =
      [CallEvent.errorResponse 401 "invalid_token".data "Token has expired".data] := by
  obtain ⟨tok, htok⟩ := Option.ne_none_iff_exists'.mp hext
  simp [doFilter, hbp, hrate, htok, hintro, hact, hexp]

theorem doFilter_rate_limited (st : RateState) (now : Int) (req : RequestModel)
    (o : Nat → IntrospectionAttempt)
    (hbp : pathBypass req.path = false)
    (hrate : (checkRateLimit st now req.path).1 = false) :
    (doFilter st now req o).1 =
      [CallEvent.errorResponse 429 "rate_limit_exceeded".data "Too many requests".data] := by
  simp [doFilter, hbp, hrate]

/-!  Claim theorems.  -/

/-- Claim C1 counterexample: the token whose granted scope string is
`other-api-extra` passes `validateRequiredScopes` for the required scope
`api`, although `api` is not a member of the whitespace-delimited scope
set — so the scope check is not the whole-member test the claim
states. -/
theorem c1_counterexample :
    validateRequiredScopes c1Tok "api".data = true ∧
      scopeSetMember c1Tok.scope "api".data = false := by
  decide

/-- Claim C1 (amended): for every TokenInfo and required scope string,
`validateRequiredScopes` succeeds if and only if the scope string is
non-empty and the required scope occurs as a contiguous substring of it
(not necessarily as a whole whitespace-delimited member); for every
TokenInfo whose scope string is empty, the check fails. -/
theorem c1_scope_substring (t : OAuth2TokenInfo) (r : Str) :
    validateRequiredScopes t r = true ↔
      t.scope ≠ [] ∧ ∃ pre post, t.scope = pre ++ r ++ post := by
  by_cases h : t.scope = []
  · simp [validateRequiredScopes, h]
  · simp only [validateRequiredScopes, List.isEmpty_iff, h, if_false, ite_false,
      containsSub_iff, ne_eq, not_false_iff, true_and]

/-- Claim C3 counterexample: the path `/x/api/v1/y` does not begin with
`/api/v1/`, so under the claim it would get the doubled limit 200; but
`checkRateLimit` rejects its 101st in-window request (base limit 100),
while a path with no `/api/v1/` occurrence is admitted at the same
count. -/
theorem c3_counterexample :
    listStartsWith "/x/api/v1/y".data apiPathLit = false ∧
      (checkRateLimit (RateState.mk 0 100) 0 "/x/api/v1/y".data).1 = false ∧
      (checkRateLimit (RateState.mk 0 100) 0 "/other/path".data).1 = true := by
  decide

/-- Claim C3 (amended): `checkRateLimit` admits exactly when the
in-window request count stays within the path's limit, and the limit is
the base limit of 100 exactly when the path contains `/api/v1/` as a
substring anywhere (not only as a leading prefix), twice the base limit
(200) for every other path. -/
theorem c3_path_limit (st : RateState) (now : Int) (path : Str) :
    ((checkRateLimit st now path).1 = true ↔
      windowCount st now + 1 ≤ apiPathLimit path) ∧
    (apiPathLimit path = if containsSub path apiPathLit then 100 else 200) := by
  refine ⟨checkRateLimit_admit_iff st now path, ?_⟩
  unfold apiPathLimit MAX_REQUESTS_PER_MINUTE
  split
  · rfl
  · norm_num

/-- Claim C4: `validateTokenExpiration` accepts iff `now < exp + skew`
with the skew buffer fixed at 5 minutes (300 s); a token with
`exp = now - skew - 1` is rejected, one with `exp = now + skew - 1` is
accepted, and at `now = exp + skew` exactly it is rejected (strict `<`);
a rejection surfaces as a 401 `invalid_token` response. -/
theorem c4_expiration (t : OAuth2TokenInfo) (now : Int) :
    (validateTokenExpiration t now = true ↔ now < t.exp + skewBufferSeconds) ∧
    (t.exp = now - skewBufferSeconds - 1 → validateTokenExpiration t now = false) ∧
    (t.exp = now + skewBufferSeconds - 1 → validateTokenExpiration t now = true) ∧
    (now = t.exp + skewBufferSeconds → validateTokenExpiration t now = false) ∧
    (∀ (st : RateState) (req : RequestModel) (o : Nat → IntrospectionAttempt),
      validateTokenExpiration t now = false →
      pathBypass req.path = false →
      (checkRateLimit st now req.path).1 = true →
      extractToken req.authHeader ≠ none →
      introspectToken o = some t → t.active = true →
      (doFilter st now req o).1 =
        [CallEvent.errorResponse 401 "invalid_token".data "Token has expired".data]) := by
  refine ⟨?_, ?_, ?_, ?_, ?_⟩
  · simp [validateTokenExpiration]
  · intro h
    simp only [validateTokenExpiration, skewBufferSeconds] at *
    simp
    omega
  · intro h
    simp only [validateTokenExpiration, skewBufferSeconds] at *
    simp
    omega
  · intro h
    simp only [validateTokenExpiration, skewBufferSeconds] at *
    simp
    omega
  · intro st req o hexp hbp hrate hext hintro hact
    exact doFilter_expired st now req o t hbp hrate hext hintro hact hexp

/-- Witness for C4 at concrete inputs: `exp = 0` is rejected at
`now = 301 = 0 + skew + 1`, and `exp = 300 = 1 + skew - 1` is accepted at
`now = 1`. -/
theorem c4_expiration_witness :
    validateTokenExpiration c4Tok 301 = false ∧
      validateTokenExpiration c4Tok' 1 = true :=
  ⟨(c4_expiration c4Tok 301).2.1 (by decide),
    (c4_expiration c4Tok' 1).2.2.1 (by decide)⟩

/-- Claim C5: a token with `exp = 0` is treated as already expired for
every current time at least 300 s after the epoch, and the pipeline then
rejects it with HTTP 401 and error code `invalid_token`. -/
theorem c5_zero_exp (t : OAuth2TokenInfo) (now : Int) (st : RateState)
    (req : RequestModel) (o : Nat → IntrospectionAttempt)
    (hexp : t.exp = 0) (hnow : 300 ≤ now)
    (hbp : pathBypass req.path = false)
    (hrate : (checkRateLimit st now req.path).1 = true)
    (hext : extractToken req.authHeader ≠ none)
    (hintro : introspectToken o = some t) (hact : t.active = true) :
    validateTokenExpiration t now = false ∧
    (doFilter st now req o).1 =
      [CallEvent.errorResponse 401 "invalid_token".data "Token has expired".data] := by
  have hv : validateTokenExpiration t now = false := by
    simp only [validateTokenExpiration, skewBufferSeconds, hexp]
    simp
    omega
  exact ⟨hv, doFilter_expired st now req o t hbp hrate hext hintro hact hv⟩

/-- Witness for C5: the concrete token `c5Tok` (`exp = 0`, active) at
`now = 300`, on a non-bypass path with a well-formed bearer header. -/
theorem c5_zero_exp_witness :
    validateTokenExpiration c5Tok 300 = false ∧
    (doFilter (RateState.mk 0 0) 300 (RequestModel.mk "/a".data "Bearer x".data)
        c5Oracle).1 =
      [CallEvent.errorResponse 401 "invalid_token".data "Token has expired".data] :=
  c5_zero_exp c5Tok 300 (RateState.mk 0 0)
    (RequestModel.mk "/a".data "Bearer x".data) c5Oracle
    rfl (by decide) (by decide) (by decide) (by decide) (by decide) rfl

/-- Claim C2 counterexample: a reply with HTTP status 204 — a 2xx status
— whose body parses as JSON is not accepted; `introspectToken` retries
and, with every attempt answering 204, returns no result. -/
theorem c2_counterexample :
    introspectToken c2Oracle = none ∧ (200 ≤ 204 ∧ 204 < 300) :=
  ⟨rfl, by norm_num⟩

/-- Claim C2 (amended): `introspectToken` makes at most 3 attempts
(its result depends only on the first 3 oracle answers); an attempt is
retried exactly when transport fails, when the HTTP status differs from
200 (including every other 2xx status), or when the body fails to parse
as JSON; a response with status exactly 200 whose body parses is accepted
as the result without further attempts; when all 3 attempts fail,
`introspectToken` returns no result and the orchestrator rejects the
request with HTTP 401 and error code `invalid_token`. -/
theorem c2_retry_policy (o : Nat → IntrospectionAttempt) :
    (∀ o', (∀ i, i < maxRetries_ → o i = o' i) →
      introspectToken o = introspectToken o') ∧
    ((∀ i, i < maxRetries_ → isRetryTrigger (o i) = true) →
      introspectToken o = none) ∧
    (∀ i, i < maxRetries_ → (∀ j, j < i → isRetryTrigger (o j) = true) →
      isRetryTrigger (o i) = false → introspectToken o = acceptedInfo (o i)) ∧
    (∀ (st : RateState) (now : Int) (req : RequestModel),
      introspectToken o = none → pathBypass req.path = false →
      (checkRateLimit st now req.path).1 = true →
      extractToken req.authHeader ≠ none →
      (doFilter st now req o).1 =
        [CallEvent.errorResponse 401 "invalid_token".data
          "Token is invalid or expired".data]) := by
  refine ⟨?_, ?_, ?_, ?_⟩
  · intro o' hagree
    exact introspectLoop_congr o o' maxRetries_ 0
      (fun i _ h2 => hagree i (by omega))
  · intro h
    exact introspectLoop_all_trigger o maxRetries_ 0
      (fun i _ h2 => h i (by omega))
  · intro i hi hprev hacc
    exact introspectLoop_first_accept o maxRetries_ 0 i (by omega) (by omega)
      (fun j _ hj2 => hprev j hj2) hacc
  · intro st now req hnone hbp hrate hext
    exact doFilter_invalid_token st now req o hbp hrate hext (Or.inl hnone)

/-- Witness for C2: an oracle failing transport on attempts 0 and 1 and
answering 200 with a parseable body on attempt 2 yields the attempt-2
token info. -/
theorem c2_retry_policy_witness : introspectToken c2wOracle = some c2wInfo :=
  ((c2_retry_policy c2wOracle).2.2.1 2 (by decide) (by decide)
    (by decide)).trans (by decide)

/-- Claim C6: `extractToken` returns a token iff the header is exactly
the literal `Bearer ` (single space, case-sensitive) followed by a
non-empty remainder of at most 1000 characters, and the token is that
remainder; every violation (including an absent header, modelled as the
empty string) yields no token, and the orchestrator then rejects with
HTTP 401 and error code `missing_token`. -/
theorem c6_extract_token (h : Str) :
    (∀ t, extractToken h = some t ↔
      (h = bearerLit ++ t ∧ t ≠ [] ∧ t.length ≤ 1000)) ∧
    (∀ (st : RateState) (now : Int) (path : Str)
        (o : Nat → IntrospectionAttempt),
      pathBypass path = false →
      (checkRateLimit st now path).1 = true →
      extractToken h = none →
      (doFilter st now (RequestModel.mk path h) o).1 =
        [CallEvent.errorResponse 401 "missing_token".data
          "Authorization header required".data]) := by
  constructor
  · intro t
    constructor
    · intro he
      unfold extractToken at he
      split_ifs at he with h1 h2 h3
      push_neg at h2 h3
      obtain ⟨hlen, htake⟩ := h2
      obtain ⟨hne, hbound⟩ := h3
      obtain rfl : h.drop 7 = t := Option.some.inj he
      refine ⟨?_, hne, by omega⟩
      conv_lhs => rw [← List.take_append_drop 7 h]
      rw [htake]
    · rintro ⟨rfl, hne, hbound⟩
      have h7 : bearerLit.length = 7 := by decide
      have htake : (bearerLit ++ t).take 7 = bearerLit := by
        rw [← h7, take_length_append]
      have hdrop : (bearerLit ++ t).drop 7 = t := by
        rw [← h7, drop_length_append]
      have hc1 : ¬ (bearerLit ++ t = []) := by simp [bearerLit]
      have hc2 : ¬ ((bearerLit ++ t).length < 7 ∨
          (bearerLit ++ t).take 7 ≠ bearerLit) := by
        push_neg
        refine ⟨?_, htake⟩
        rw [List.length_append, h7]
        omega
      have hc3 : ¬ ((bearerLit ++ t).drop 7 = [] ∨
          ((bearerLit ++ t).drop 7).length > 1000) := by
        rw [hdrop]
        push_neg
        exact ⟨hne, by omega⟩
      unfold extractToken
      rw [if_neg hc1, if_neg hc2, if_neg hc3, hdrop]
  · intro st now path o hbp hrate hnone
    simp [doFilter, hbp, hrate, hnone]

/-- Witness for C6: the header `Bearer abc` yields exactly the token
`abc`. -/
theorem c6_extract_token_witness :
    extractToken "Bearer abc".data = some "abc".data :=
  ((c6_extract_token "Bearer abc".data).1 "abc".data).mpr
    ⟨by decide, by decide, by decide⟩

/-- Claim C7: for a path class with limit `N`, starting from a freshly
reset window and staying inside the 60-second window, the `N`-th
`checkRateLimit` call admits and the `(N+1)`-th rejects; whenever more
than 60 seconds have elapsed since the window start, the next call resets
the count (post-call state: window start = now, count = 1) and admits;
and a rate-limit rejection surfaces as a 429 `rate_limit_exceeded`
response. -/
theorem c7_rate_window (path : Str) (t0 : Int) (times : Nat → Int) (N : Nat)
    (hN : (N : Int) = apiPathLimit path)
    (hwin : ∀ i, i ≤ N → times i - t0 ≤ 60) :
    (checkRateLimit (runRateCalls times path (N - 1) (RateState.mk t0 0))
        (times (N - 1)) path).1 = true ∧
    (checkRateLimit (runRateCalls times path N (RateState.mk t0 0))
        (times N) path).1 = false ∧
    (∀ (st : RateState) (now : Int), now - st.lastRequestTime > 60 →
      (checkRateLimit st now path).1 = true ∧
      (checkRateLimit st now path).2 = RateState.mk now 1) ∧
    (∀ (st : RateState) (now : Int) (req : RequestModel)
        (o : Nat → IntrospectionAttempt),
      req.path = path → pathBypass path = false →
      (checkRateLimit st now path).1 = false →
      (doFilter st now req o).1 =
        [CallEvent.errorResponse 429 "rate_limit_exceeded".data
          "Too many requests".data]) := by
  have hNpos : 1 ≤ N := by
    rcases apiPathLimit_cases path with hl | hl <;> rw [hl] at hN <;> omega
  refine ⟨?_, ?_, ?_, ?_⟩
  · rw [runRateCalls_no_reset times path t0 (N - 1) 0
      (fun i hi => hwin i (by omega))]
    rw [checkRateLimit_admit_iff]
    have hno : ¬ (times (N - 1) - t0 > 60) := by
      have := hwin (N - 1) (by omega)
      omega
    simp only [windowCount, hno, if_false, ite_false]
    omega
  · rw [runRateCalls_no_reset times path t0 N 0 (fun i hi => hwin i (by omega))]
    rw [checkRateLimit_reject_iff]
    have hno : ¬ (times N - t0 > 60) := by
      have := hwin N le_rfl
      omega
    simp only [windowCount, hno, if_false, ite_false]
    omega
  · intro st now hr
    constructor
    · rw [checkRateLimit_admit_iff]
      simp only [windowCount, hr, if_true, ite_true]
      rcases apiPathLimit_cases path with hl | hl <;> rw [hl] <;> norm_num
    · exact checkRateLimit_state_reset st now path hr
  · intro st now req o hpath hbp hrate
    subst hpath
    exact doFilter_rate_limited st now req o hbp hrate

/-- Witness for C7: on the path `/api/v1/x` (limit 100), with all calls
at time 0 in a window started at 0, the 100th call admits. -/
theorem c7_rate_window_witness :
    (checkRateLimit
        (runRateCalls (fun _ => 0) "/api/v1/x".data 99 (RateState.mk 0 0))
        0 "/api/v1/x".data).1 = true :=
  (c7_rate_window "/api/v1/x".data 0 (fun _ => 0) 100 (by decide)
    (fun _ _ => by norm_num)).1

/-- Claim C8: for any two requests, one whose introspection exhausts all
attempts and one whose introspection returns an inactive token (other
claim fields arbitrary), `doFilter` produces identical caller-visible
behaviour; in the token-bearing case that common behaviour is the
single 401 `invalid_token` rejection with the same description. -/
theorem c8_failure_inactive_indistinguishable (st : RateState) (now : Int)
    (req : RequestModel) (o₁ o₂ : Nat → IntrospectionAttempt)
    (info : OAuth2TokenInfo)
    (h1 : introspectToken o₁ = none)
    (h2 : introspectToken o₂ = some info)
    (h3 : info.active = false) :
    doFilter st now req o₁ = doFilter st now req o₂ ∧
    (pathBypass req.path = false →
      (checkRateLimit st now req.path).1 = true →
      extractToken req.authHeader ≠ none →
      (doFilter st now req o₁).1 =
        [CallEvent.errorResponse 401 "invalid_token".data
          "Token is invalid or expired".data]) := by
  constructor
  · unfold doFilter
    rw [h1, h2]
    simp [h3]
  · intro hbp hrate hext
    exact doFilter_invalid_token st now req o₁ hbp hrate hext (Or.inl h1)

/-- Witness for C8: an all-transport-failure oracle and an oracle
answering 200 with an inactive token produce the same `doFilter`
result. -/
theorem c8_failure_inactive_indistinguishable_witness :
    doFilter (RateState.mk 0 0) 100
        (RequestModel.mk "/a".data "Bearer x".data) c8OracleFail =
      doFilter (RateState.mk 0 0) 100
        (RequestModel.mk "/a".data "Bearer x".data) c8OracleInactive :=
  (c8_failure_inactive_indistinguishable (RateState.mk 0 0) 100
    (RequestModel.mk "/a".data "Bearer x".data) c8OracleFail c8OracleInactive
    c8Info (by decide) (by decide) rfl).1

/-- Claim C9: every evaluation of `doFilter` performs exactly one
callback invocation — a single downstream-continuation call or a single
error-response call — on every control path. -/
theorem c9_exactly_one_outcome (st : RateState) (now : Int)
    (req : RequestModel) (o : Nat → IntrospectionAttempt) :
    ∃ e, (doFilter st now req o).1 = [e] := by
  unfold doFilter
  split
  · exact ⟨_, rfl⟩
  split
  · exact ⟨_, rfl⟩
  split
  · exact ⟨_, rfl⟩
  split
  · exact ⟨_, rfl⟩
  split
  · exact ⟨_, rfl⟩
  split
  · exact ⟨_, rfl⟩
  split
  · exact ⟨_, rfl⟩
  exact ⟨_, rfl⟩

/-- Claim C10: there is a token accepted by `extractToken` — here
`a&scope=b` — for which form-decoding the introspection request body
does not return the presented token as the value of the `token` field:
the concatenated body lets the token inject extra form fields. -/
theorem c10_token_injection :
    ∃ token : Str,
      extractToken (bearerLit ++ token) = some token ∧
      formFieldValue (buildIntrospectionBody token clientId_ clientSecret_)
          "token".data ≠ some token := by
  refine ⟨"a&scope=b".data, by decide, by decide⟩

end Redsys
